import Mathlib

/-!
Verification of the langchain-glean integration against its specification.

The Python sources under src/langchain_glean are shallowly embedded below:
pure helper functions become Lean functions, fallible call paths become
functions over an explicit Except-valued outcome of the vendor call, and
Python string operations (lower, upper, strip, substring containment,
isalnum) are modelled by executable list-of-characters helpers restricted
to the ASCII fragment actually exercised by the code.
-/

namespace LangchainGlean

/-! ### Python string primitives, modelled over character lists -/

/-- Boolean test that the list p is an initial segment of l. -/
def listIsPre (p l : List Char) : Bool :=
  match p, l with
  | [], _ => true
  | _ :: _, [] => false
  | a :: p1, b :: l1 => a == b && listIsPre p1 l1

/-- Boolean test that n occurs contiguously inside l
(the Python idiom needle in haystack). -/
def listHasSub (n l : List Char) : Bool :=
  listIsPre n l ||
    match l with
    | [] => false
    | _ :: t => listHasSub n t

/-- Python needle in haystack on strings. -/
def strHasSub (hay needle : String) : Bool :=
  listHasSub needle.data hay.data

/-- ASCII lower-casing of one character (Python str.lower on the
ASCII range used by the code). -/
def lowerChar (c : Char) : Char :=
  if c.isUpper then Char.ofNat (c.toNat + 32) else c

/-- ASCII upper-casing of one character (Python str.upper on the
ASCII range used by the code). -/
def upperChar (c : Char) : Char :=
  if c.isLower then Char.ofNat (c.toNat - 32) else c

/-- Python str.lower. -/
def pyLower (s : String) : String := ⟨s.data.map lowerChar⟩

/-- Python str.upper. -/
def pyUpper (s : String) : String := ⟨s.data.map upperChar⟩

/-- Python str.strip: drop leading and trailing whitespace. -/
def pyStrip (s : String) : String :=
  ⟨((s.data.dropWhile Char.isWhitespace).reverse.dropWhile Char.isWhitespace).reverse⟩

/-! ### src/langchain_glean/error_handling.py -/

/-- An exception handed to convert_glean_error: either a vendor
glean.api_client.errors.GleanError carrying a message (its str rendering),
an optional status_code attribute and an optional error_type attribute,
or any other exception carrying only its str rendering.  The raw_response
attribute is omitted: it is only copied into the details payload and
never influences classification. -/
inductive RaisedException where
  | gleanError (msg : String) (statusCode : Option Int) (errorType : Option String)
  | otherError (msg : String)
deriving DecidableEq

/-- The custom exception hierarchy of src/langchain_glean/exceptions.py,
restricted to the constructor chosen and the message and status code
stored by convert_glean_error (the original-error, error_type and details
payloads carry no information relevant to the claims). -/
inductive GleanIntegrationError where
  | authenticationError (message : String) (statusCode : Option Int)
  | notFoundError (message : String) (statusCode : Option Int)
  | rateLimitError (message : String) (statusCode : Option Int)
  | timeoutError (message : String) (statusCode : Option Int)
  | apiError (message : String) (statusCode : Option Int)
deriving DecidableEq

/-- The message stored in the converted error. -/
def GleanIntegrationError.errMessage : GleanIntegrationError → String
  | .authenticationError m _ => m
  | .notFoundError m _ => m
  | .rateLimitError m _ => m
  | .timeoutError m _ => m
  | .apiError m _ => m

/-- Classifier check: GleanRateLimitError. -/
def GleanIntegrationError.isRateLimitError : GleanIntegrationError → Bool
  | .rateLimitError _ _ => true
  | _ => false

/-- Classifier check: GleanNotFoundError. -/
def GleanIntegrationError.isNotFoundError : GleanIntegrationError → Bool
  | .notFoundError _ _ => true
  | _ => false

/-- Classifier check: GleanAuthenticationError. -/
def GleanIntegrationError.isAuthenticationError : GleanIntegrationError → Bool
  | .authenticationError _ _ => true
  | _ => false

/-- Classifier check: the generic GleanAPIError. -/
def GleanIntegrationError.isApiError : GleanIntegrationError → Bool
  | .apiError _ _ => true
  | _ => false

/-- convert_glean_error (error_handling.py lines 29-70): map a raised
exception to a GleanIntegrationError.  The branch structure mirrors the
source: a vendor error is matched against status 401 / authentication /
unauthorized, then status 404 / not found, then status 429 / rate limit /
too many requests, then timeout, with the generic GleanAPIError as the
fallback; every non-vendor exception becomes a generic GleanAPIError
whose message starts with the Unexpected error prefix. -/
def convert_glean_error (error : RaisedException) (context : String) : GleanIntegrationError :=
  match error with
  | .gleanError msg status _errorType =>
    let message := "Glean API error" ++ (if context ≠ "" then " in " ++ context else "") ++ ": " ++ msg
    if status = some 401 ∨ strHasSub (pyLower msg) "authentication" = true
        ∨ strHasSub (pyLower msg) "unauthorized" = true then
      .authenticationError message status
    else if status = some 404 ∨ strHasSub (pyLower msg) "not found" = true then
      .notFoundError message status
    else if status = some 429 ∨ strHasSub (pyLower msg) "rate limit" = true
        ∨ strHasSub (pyLower msg) "too many requests" = true then
      .rateLimitError message status
    else if strHasSub (pyLower msg) "timeout" = true then
      .timeoutError message status
    else
      .apiError message status
  | .otherError msg =>
    .apiError ("Unexpected error" ++ (if context ≠ "" then " in " ++ context else "") ++ ": " ++ msg) none

/-- A message matching none of the textual signals consulted by
convert_glean_error (authentication, unauthorized, not found, rate limit,
too many requests, timeout — all checked on the lower-cased message). -/
def no_signal_text (msg : String) : Bool :=
  !strHasSub (pyLower msg) "authentication" && !strHasSub (pyLower msg) "unauthorized" &&
  !strHasSub (pyLower msg) "not found" && !strHasSub (pyLower msg) "rate limit" &&
  !strHasSub (pyLower msg) "too many requests" && !strHasSub (pyLower msg) "timeout"

/-- Python string replace of hyphens and underscores by nothing, as in
glean_instance.replace("-", "").replace("_", ""). -/
def remove_dash_underscore (s : String) : String :=
  ⟨s.data.filter (fun c => !(c == '-' || c == '_'))⟩

/-- Python str.isalnum: non-empty and every character alphanumeric. -/
def pyIsAlnum (s : String) : Bool :=
  !s.data.isEmpty && s.data.all Char.isAlphanum

/-- validate_configuration (error_handling.py lines 146-169): returns the
message of the GleanConfigurationError raised, or none when validation
passes.  The four checks run in source order: empty or whitespace-only
instance, empty or whitespace-only token, instance format (alphanumeric
after removing hyphens and underscores), and minimum stripped token
length 10. -/
def validate_configuration (glean_instance api_token : String) : Option String :=
  if pyStrip glean_instance = "" then some "Glean instance is required"
  else if pyStrip api_token = "" then some "Glean API token is required"
  else if pyIsAlnum (remove_dash_underscore glean_instance) = false then
    some ("Invalid Glean instance format: " ++ glean_instance)
  else if (pyStrip api_token).data.length < 10 then
    some "API token appears to be invalid (too short)"
  else none

/-! ### src/langchain_glean/retrievers/search.py -/

/-- The piece of a Glean search result consulted when computing the
Document body: the snippets array and the optional title.  The remaining
metadata assembly of _build_document (search.py lines 292-343) copies
fields into the Document metadata dict and is not modelled because no
claim refers to it. -/
structure SearchHit where
  snippets : List (Option String)
  title : Option String
deriving DecidableEq

/-- The non-empty snippet texts of a hit, in order (search.py lines
279-285): snippet.get("text", "") for each snippet, keeping truthy
values. -/
def collected_snippet_texts (snippets : List (Option String)) : List String :=
  (snippets.map (fun s => s.getD "")).filter (fun t => t != "")

/-- The newline-join of the non-empty snippet texts (search.py line 287):
the empty string when there are none. -/
def joined_snippet_text (snippets : List (Option String)) : String :=
  let ts := collected_snippet_texts snippets
  if ts ≠ [] then String.intercalate "\n" ts else ""

/-- The page_content of the Document built by _build_document (search.py
lines 279-290): the joined snippet text, replaced by the title (default
empty) when it strips to the empty string. -/
def build_document_content (snippets : List (Option String)) (title : Option String) : String :=
  let page_content := joined_snippet_text snippets
  if pyStrip page_content = "" then title.getD "" else page_content

/-- The exceptions of src/langchain_glean/client/glean_client.py caught
around self._client.post in _get_relevant_documents: an HTTP error with
status code and optional response body, a connection error, or a generic
client error (each carrying its str rendering). -/
inductive ClientPostError where
  | httpError (statusCode : Int) (response : Option String)
  | connectionError (msg : String)
  | clientError (msg : String)
deriving DecidableEq

/-- The error details string built for a GleanHTTPError (search.py lines
185-187); the response body is appended only when truthy. -/
def http_error_details (statusCode : Int) (response : Option String) : String :=
  "HTTP Error " ++ toString statusCode ++
    (match response with
     | some r => if r ≠ "" then ": " ++ r else ""
     | none => "")

/-- GleanSearchRetriever._get_relevant_documents (search.py lines
159-210), given the outcome of the underlying client.post call.  The
result is the pair of the returned Document bodies and the error strings
reported to run_manager.on_retriever_error: each caught vendor error is
reported through the callback and an empty document list is returned;
a successful response maps every hit through _build_document.  The
per-document try/except (lines 199-204) cannot fire in this model since
the embedded _build_document is total, and the JSON serialisation of the
payload is not modelled. -/
def get_relevant_documents_search (outcome : Except ClientPostError (List SearchHit)) :
    List String × List String :=
  match outcome with
  | .error (.httpError s r) => ([], ["Glean API error: " ++ http_error_details s r])
  | .error (.connectionError m) => ([], ["Glean connection error: " ++ m])
  | .error (.clientError m) => ([], ["Glean client error: " ++ m])
  | .ok results => (results.map (fun h => build_document_content h.snippets h.title), [])

/-! ### src/langchain_glean/retrievers/people.py -/

/-- Truthiness of an optional string value from the raw values dict
(None and the empty string are falsy). -/
def truthyStr : Option String → Bool
  | some s => s != ""
  | none => false

/-- Truthiness of an optional filters mapping (None and the empty dict
are falsy); the mapping is modelled as an association list. -/
def truthyFilters : Option (List (String × String)) → Bool
  | some l => !l.isEmpty
  | none => false

/-- The validated PeopleProfileBasicRequest (people.py lines 16-47). -/
structure PeopleProfileBasicRequest where
  query : Option String
  filters : Option (List (String × String))
  page_size : Option Int
deriving DecidableEq

/-- The pydantic bound checks on page_size (people.py lines 35-40:
ge 1, le 100; absent passes). -/
def page_size_in_range : Option Int → Bool
  | some n => decide (1 ≤ n) && decide (n ≤ 100)
  | none => true

/-- Construction of a PeopleProfileBasicRequest: the before-validator
ensure_query_or_filter (people.py lines 42-47) rejects inputs where both
query and filters are falsy, then pydantic field validation rejects a
page_size outside 1..100; otherwise the request is built. -/
def construct_people_profile_basic_request (query : Option String)
    (filters : Option (List (String × String))) (page_size : Option Int) :
    Except String PeopleProfileBasicRequest :=
  if !truthyStr query && !truthyFilters filters then
    .error "At least one of \"query\" or \"filters\" must be provided."
  else if !page_size_in_range page_size then
    .error "page_size must be between 1 and 100"
  else
    .ok ⟨query, filters, page_size⟩

/-- Ok-test on a construction outcome. -/
def constructionOk : Except String PeopleProfileBasicRequest → Bool
  | .ok _ => true
  | .error _ => false

/-- Decidable equality of Except outcomes, used to evaluate the theorems
below on concrete inputs. -/
instance exceptDecEq {ε α : Type} [DecidableEq ε] [DecidableEq α] :
    DecidableEq (Except ε α) := fun a b =>
  match a, b with
  | .ok x, .ok y =>
    if h : x = y then .isTrue (by rw [h]) else .isFalse (by simp [h])
  | .error x, .error y =>
    if h : x = y then .isTrue (by rw [h]) else .isFalse (by simp [h])
  | .ok _, .error _ => .isFalse (by simp)
  | .error _, .ok _ => .isFalse (by simp)

/-- One person entry of the entities response: the optional name
attribute and the optional metadata namespace, the latter modelled as an
association list of its attribute dict (person.metadata.__dict__). -/
structure PersonResult where
  name : Option String
  metadata : Option (List (String × String))
deriving DecidableEq

/-- The Document built for one person (people.py lines 173-183): the
metadata keeps only truthy values, the body is name, newline, title,
stripped; a missing name attribute defaults to Unknown. -/
def person_document (p : PersonResult) : String × List (String × String) :=
  let metadata := match p.metadata with
    | some kvs => kvs.filter (fun kv => kv.2 != "")
    | none => []
  let name := p.name.getD "Unknown"
  let title := (metadata.lookup "title").getD ""
  (pyStrip (name ++ "\n" ++ title), metadata)

/-- The exceptions that self._client.entities.list may raise: a vendor
glean.errors.GleanError, or any other exception. -/
inductive EntitiesListError where
  | gleanSdkError (msg : String)
  | otherException
deriving DecidableEq

/-- GleanPeopleProfileRetriever._get_relevant_documents (people.py lines
154-185), given the configured k and the outcome of the entities.list
call.  A vendor GleanError is re-raised as a ValueError (the error case
of the result); any other exception yields an empty list; a successful
response maps every result to a Document.  The k field is consulted only
while building the request (see build_entities_request_from_text) and
does not appear in the mapping. -/
def get_relevant_documents_people (k : Option Int)
    (outcome : Except EntitiesListError (List PersonResult)) :
    Except String (List (String × List (String × String))) :=
  match outcome with
  | .error (.gleanSdkError m) => .error ("Glean client error: " ++ m)
  | .error .otherException => .ok []
  | .ok results => .ok (results.map person_document)

/-- The page size stored on the ListEntitiesRequest when none is given
explicitly: self.k or 10, where a missing or zero k falls back to 10
(people.py lines 241 and 263). -/
def default_page_size (k : Option Int) : Int :=
  match k with
  | some n => if n = 0 then 10 else n
  | none => 10

/-- The ListEntitiesRequest fields set by _build_entities_request
(people.py lines 219-265); each filter entry becomes a FacetFilter with
one EQUALS value, modelled as the (field_name, value) pair. -/
structure ListEntitiesRequest where
  entityType : String
  query : Option String
  pageSize : Option Int
  filterFacets : List (String × String)
deriving DecidableEq

/-- _build_entities_request on a free-text input (people.py lines
259-265): entity type PEOPLE, the text as query, and the explicit
page_size keyword argument or self.k or 10. -/
def build_entities_request_from_text (k : Option Int) (q : String)
    (kwargs_page_size : Option Int) : ListEntitiesRequest :=
  { entityType := "PEOPLE"
    query := some q
    pageSize := some (match kwargs_page_size with
      | some n => n
      | none => default_page_size k)
    filterFacets := [] }

/-- _build_entities_request on a PeopleProfileBasicRequest (people.py
lines 233-257): entity type PEOPLE, page size from the request or
self.k or 10, the query and filters copied only when truthy. -/
def build_entities_request_from_basic (k : Option Int)
    (data : PeopleProfileBasicRequest) : ListEntitiesRequest :=
  { entityType := "PEOPLE"
    pageSize := some (match data.page_size with
      | some n => n
      | none => default_page_size k)
    query := match data.query with
      | some q => if q ≠ "" then some q else none
      | none => none
    filterFacets := match data.filters with
      | some fs => fs
      | none => [] }

/-! ### src/langchain_glean/chat_models/chat.py -/

/-- A LangChain message fed to ChatGlean._convert_message_to_glean_format:
HumanMessage, AIMessage, SystemMessage, a ChatMessage with a custom role,
or any other message type; each carries the str rendering of its
content. -/
inductive LCMessage where
  | humanMessage (content : String)
  | aiMessage (content : String)
  | systemMessage (content : String)
  | chatMessage (role : String) (content : String)
  | otherMessage (content : String)
deriving DecidableEq

/-- The vendor message author (models.Author). -/
inductive GleanAuthor where
  | user
  | gleanAi
deriving DecidableEq

/-- The vendor message type (models.MessageType). -/
inductive GleanMessageType where
  | contentType
  | contextType
deriving DecidableEq

/-- The vendor chat turn built by the conversion: author, message type,
and the text of its single fragment. -/
structure GleanChatMessage where
  author : GleanAuthor
  messageType : GleanMessageType
  fragmentText : String
deriving DecidableEq

/-- ChatGlean._convert_message_to_glean_format (chat.py lines 177-207):
human maps to USER/CONTENT, assistant to GLEAN_AI/CONTENT, system to
USER/CONTEXT, a ChatMessage by upper-cased role (USER, or
ASSISTANT and AI to GLEAN_AI) with USER as the default, and any other
message type to USER/CONTENT. -/
def convert_message_to_glean_format (m : LCMessage) : GleanChatMessage :=
  match m with
  | .humanMessage c => ⟨.user, .contentType, c⟩
  | .aiMessage c => ⟨.gleanAi, .contentType, c⟩
  | .systemMessage c => ⟨.user, .contextType, c⟩
  | .chatMessage role c =>
    if pyUpper role = "USER" then ⟨.user, .contentType, c⟩
    else if pyUpper role = "ASSISTANT" ∨ pyUpper role = "AI" then ⟨.gleanAi, .contentType, c⟩
    else ⟨.user, .contentType, c⟩
  | .otherMessage c => ⟨.user, .contentType, c⟩

/-- One fragment dict of a streamed message: its optional text value
(none models an absent text key). -/
structure StreamFragment where
  text : Option String
deriving DecidableEq

/-- One entry of the messages array of a streamed NDJSON line: a dict
with author, messageType and fragments, or a non-dict entry (skipped by
the isinstance check). -/
inductive StreamMessage where
  | dictMessage (author : String) (messageType : String) (fragments : List StreamFragment)
  | nonDictMessage
deriving DecidableEq

/-- The parsed JSON payload of one NDJSON line of the streamed chat
response: the optional messages array (none models an absent messages
key), chunk_data.get("chatId") and
chunk_data.get("chatSessionTrackingToken").  JSON parsing itself is not
modelled: lines arrive pre-parsed. -/
structure StreamLineData where
  messages : Option (List StreamMessage)
  chatId : Option String
  trackingToken : Option String
deriving DecidableEq

/-- One physical line of the streamed body: blank (skipped by the
line.strip() guard) or a data line. -/
inductive StreamLine where
  | blankLine
  | dataLine (d : StreamLineData)
deriving DecidableEq

/-- One yielded ChatGenerationChunk: the fragment text and the chat_id
and tracking_token stored in its generation_info. -/
structure StreamChunk where
  text : String
  chatId : Option String
  trackingToken : Option String
deriving DecidableEq

/-- Python truthiness of an optional string (None and the empty string
are falsy). -/
def optionTruthy : Option String → Bool
  | some s => s != ""
  | none => false

/-- The inner fragment loop of ChatGlean._stream (chat.py lines 468-486)
for one message of one line: every fragment carrying a non-empty text
yields a chunk holding that text together with the chatId and tracking
token of the current line, and self.chat_id is set to the current line
chatId when that is truthy and the attribute is still falsy. -/
def emit_fragments (cid tk : Option String) (frags : List StreamFragment)
    (st : Option String) : List StreamChunk × Option String :=
  match frags with
  | [] => ([], st)
  | f :: rest =>
    match f.text with
    | some t =>
      if t ≠ "" then
        let st1 := if optionTruthy cid && !optionTruthy st then cid else st
        let r := emit_fragments cid tk rest st1
        (⟨t, cid, tk⟩ :: r.1, r.2)
      else emit_fragments cid tk rest st
    | none => emit_fragments cid tk rest st

/-- The message loop of ChatGlean._stream (chat.py lines 466-467): only
dict messages with author GLEAN_AI and messageType CONTENT contribute
fragments. -/
def emit_messages (cid tk : Option String) (msgs : List StreamMessage)
    (st : Option String) : List StreamChunk × Option String :=
  match msgs with
  | [] => ([], st)
  | .dictMessage a mt frags :: rest =>
    if a = "GLEAN_AI" ∧ mt = "CONTENT" then
      let r1 := emit_fragments cid tk frags st
      let r2 := emit_messages cid tk rest r1.2
      (r1.1 ++ r2.1, r2.2)
    else emit_messages cid tk rest st
  | .nonDictMessage :: rest => emit_messages cid tk rest st

/-- Processing of one data line (chat.py line 465): nothing is emitted
when the messages key is absent. -/
def process_stream_line (d : StreamLineData) (st : Option String) :
    List StreamChunk × Option String :=
  match d.messages with
  | some msgs => emit_messages d.chatId d.trackingToken msgs st
  | none => ([], st)

/-- ChatGlean._stream over the whole NDJSON body (chat.py lines 456-486):
blank lines are skipped, data lines are processed in order, and the
self.chat_id state threads through; the result is the emitted chunk list
and the final state. -/
def stream_chat (lines : List StreamLine) (st : Option String) :
    List StreamChunk × Option String :=
  match lines with
  | [] => ([], st)
  | .blankLine :: rest => stream_chat rest st
  | .dataLine d :: rest =>
    let r1 := process_stream_line d st
    let r2 := stream_chat rest r1.2
    (r1.1 ++ r2.1, r2.2)

/-- The three-line streamed body of the specification example (also the
mock body of the unit tests): line one carries the chat id and tracking
token with an empty messages array, lines two and three each carry one
assistant-content fragment and no chat id. -/
def exampleStreamLines : List StreamLine :=
  [.dataLine ⟨some [], some "mock-chat-id", some "mock-tracking-token"⟩,
   .dataLine ⟨some [.dictMessage "GLEAN_AI" "CONTENT" [⟨some "This is "⟩]], none, none⟩,
   .dataLine ⟨some [.dictMessage "GLEAN_AI" "CONTENT" [⟨some "a streaming response."⟩]], none, none⟩]

/-! ### src/langchain_glean/tools/search.py -/

/-- The input of GleanSearchTool._run: a plain string query or a dict of
search parameters (modelled as an association list of string values). -/
inductive ToolQueryInput where
  | strQuery (s : String)
  | dictParams (params : List (String × String))
deriving DecidableEq

/-- The query text the tool passes to the retriever: a string input is
wrapped as the query parameter, a dict input must already contain a
query key (tools/search.py lines 32-40). -/
def extract_query : ToolQueryInput → Option String
  | .strQuery s => some s
  | .dictParams ps => ps.lookup "query"

/-- One Document as the tool formats it: the optional title and url
metadata entries and the page content. -/
structure ToolDocument where
  title : Option String
  url : Option String
  content : String
deriving DecidableEq

/-- The formatted block for one result (tools/search.py lines 48-53),
with the 1-based index. -/
def format_result_entry (i : Nat) (d : ToolDocument) : String :=
  "Result " ++ toString i ++ ":\n" ++
  "Title: " ++ d.title.getD "No title" ++ "\n" ++
  "URL: " ++ d.url.getD "No URL" ++ "\n" ++
  "Content: " ++ d.content ++ "\n"

/-- GleanSearchTool._run (tools/search.py lines 22-58), given the query
input and the outcome of the underlying retriever call (the error case
carries the str rendering of the raised exception).  _arun (lines 60-96)
is line-for-line identical up to awaiting and is covered by the same
model.  Every path returns a string: a missing query key returns the
required-query message before the retriever is invoked, a raised
exception is caught and rendered with the Error searching Glean prefix,
an empty result list yields the no-results message, and otherwise the
results are formatted and joined by blank lines. -/
def tool_run (query : ToolQueryInput) (outcome : Except String (List ToolDocument)) : String :=
  match extract_query query with
  | none => "Error: Search query is required"
  | some _ =>
    match outcome with
    | .error e => "Error searching Glean: " ++ e
    | .ok docs =>
      if docs.isEmpty then "No results found."
      else String.intercalate "\n\n"
        ((docs.enumFrom 1).map (fun p => format_result_entry p.1 p.2))

/-! ### src/langchain_glean/chat_models/agent_chat.py -/

/-- The text value of one fragment dict of an agent response message:
a string, or a non-string value rejected by the isinstance check. -/
inductive AgentFragmentText where
  | strText (s : String)
  | nonStrText
deriving DecidableEq

/-- One fragment dict of an agent response message: none models an
absent text key, whose get default is the empty string. -/
structure AgentFragment where
  text : Option AgentFragmentText
deriving DecidableEq

/-- One entry of response.messages: a dict with an author and a
fragments array, or a non-dict entry. -/
inductive AgentMessage where
  | dictMessage (author : String) (fragments : List AgentFragment)
  | nonDictMessage
deriving DecidableEq

/-- The agent run response after a successful network call: the messages
list (empty when the attribute is missing or falsy) and the str
rendering of the whole raw response object. -/
structure AgentRunResponse where
  messages : List AgentMessage
  rendering : String
deriving DecidableEq

/-- The text a fragment contributes to the accumulated content
(agent_chat.py lines 63-66): frag.get("text", "") when it is a string,
nothing otherwise. -/
def agent_fragment_contribution (f : AgentFragment) : String :=
  match f.text with
  | none => ""
  | some (.strText s) => s
  | some .nonStrText => ""

/-- The author filter of agent_chat.py line 56: dict messages with
author GLEAN_AI. -/
def agent_is_ai_message : AgentMessage → Bool
  | .dictMessage a _ => a == "GLEAN_AI"
  | .nonDictMessage => false

/-- ChatGleanAgent._generate after a successful network call
(agent_chat.py lines 54-72): the content is accumulated from the
fragments of the last GLEAN_AI dict message (the empty-fragments guard
of line 62 is absorbed by folding over the empty list), and an empty
content falls back to the str rendering of the raw response; the result
is the content list of the single generation.  _agenerate (lines 98-116)
is identical up to awaiting and is covered by the same model. -/
def agent_generate (r : AgentRunResponse) : List String :=
  let aiMessages := r.messages.filter agent_is_ai_message
  let content :=
    match aiMessages.getLast? with
    | some (.dictMessage _ frags) =>
      frags.foldl (fun acc f => acc ++ agent_fragment_contribution f) ""
    | _ => ""
  let content2 := if content = "" then r.rendering else content
  [content2]

/-- A fragment whose text is a non-empty string. -/
def agent_fragment_is_nonempty_str (f : AgentFragment) : Bool :=
  match f.text with
  | some (.strText s) => s != ""
  | _ => false

/-- A message with author GLEAN_AI containing at least one non-empty
string fragment. -/
def agent_message_has_ai_content (m : AgentMessage) : Bool :=
  match m with
  | .dictMessage a frags => a == "GLEAN_AI" && frags.any agent_fragment_is_nonempty_str
  | .nonDictMessage => false

end LangchainGlean

namespace LangchainGlean

/-- Claim C1: classification by convert_glean_error.  A vendor error whose
message contains rate limit with no status code (and matching no
earlier-precedence signal) is a GleanRateLimitError; a vendor error with
status 404 and unrelated text is a GleanNotFoundError; a vendor error
matching no signal at all is the generic GleanAPIError; a non-vendor
error is the generic GleanAPIError with an Unexpected error message
prefix.  The hypotheses excluding earlier signals reflect the precedence
order the claim itself states. -/
theorem convert_glean_error_classification :
    (∀ (msg : String) (et : Option String) (ctx : String),
      strHasSub (pyLower msg) "rate limit" = true →
      strHasSub (pyLower msg) "authentication" = false →
      strHasSub (pyLower msg) "unauthorized" = false →
      strHasSub (pyLower msg) "not found" = false →
      (convert_glean_error (.gleanError msg none et) ctx).isRateLimitError = true) ∧
    (∀ (msg : String) (et : Option String) (ctx : String),
      no_signal_text msg = true →
      (convert_glean_error (.gleanError msg (some 404) et) ctx).isNotFoundError = true) ∧
    (∀ (msg : String) (status : Option Int) (et : Option String) (ctx : String),
      status ≠ some 401 → status ≠ some 404 → status ≠ some 429 →
      no_signal_text msg = true →
      (convert_glean_error (.gleanError msg status et) ctx).isApiError = true) ∧
    (∀ (msg : String) (ctx : String),
      (convert_glean_error (.otherError msg) ctx).isApiError = true ∧
      listIsPre "Unexpected error".data
        ((convert_glean_error (.otherError msg) ctx).errMessage).data = true) := by
  refine ⟨?_, ?_, ?_, ?_⟩
  · intro msg et ctx h1 h2 h3 h4
    simp [convert_glean_error, h1, h2, h3, h4, GleanIntegrationError.isRateLimitError]
  · intro msg et ctx h
    simp only [no_signal_text, Bool.and_eq_true, Bool.not_eq_true'] at h
    obtain ⟨⟨⟨⟨⟨ha, hb⟩, hc⟩, hd⟩, he⟩, hf⟩ := h
    simp [convert_glean_error, ha, hb, hc, hd, he, hf, GleanIntegrationError.isNotFoundError]
  · intro msg status et ctx h401 h404 h429 h
    simp only [no_signal_text, Bool.and_eq_true, Bool.not_eq_true'] at h
    obtain ⟨⟨⟨⟨⟨ha, hb⟩, hc⟩, hd⟩, he⟩, hf⟩ := h
    simp [convert_glean_error, h401, h404, h429, ha, hb, hc, hd, he, hf,
      GleanIntegrationError.isApiError]
  · intro msg ctx
    constructor
    · simp [convert_glean_error, GleanIntegrationError.isApiError]
    · cases hc : decide (ctx ≠ "") <;>
        simp_all [convert_glean_error, GleanIntegrationError.errMessage, listIsPre]

/-- Witness for C1 at concrete inputs: a rate-limit message without
status, a 404 with unrelated text, a signal-free vendor error with
status 500, and a plain non-vendor exception. -/
theorem convert_glean_error_classification_witness :
    (convert_glean_error (.gleanError "rate limit exceeded" none none) "").isRateLimitError = true ∧
    (convert_glean_error (.gleanError "boom" (some 404) none) "").isNotFoundError = true ∧
    (convert_glean_error (.gleanError "boom" (some 500) none) "").isApiError = true ∧
    (convert_glean_error (.otherError "oops") "").isApiError = true :=
  ⟨convert_glean_error_classification.1 "rate limit exceeded" none ""
      (by decide) (by decide) (by decide) (by decide),
   convert_glean_error_classification.2.1 "boom" none "" (by decide),
   convert_glean_error_classification.2.2.1 "boom" (some 500) none ""
      (by decide) (by decide) (by decide) (by decide),
   (convert_glean_error_classification.2.2.2 "oops" "").1⟩

/-- Claim C5 counterexample: both arguments are non-empty and not
whitespace-only, yet validation fails, because the stripped token is
shorter than ten characters.  This refutes the only-if direction of the
claim. -/
theorem validate_configuration_counterexample :
    (validate_configuration "glean" "short").isSome = true ∧
    pyStrip "glean" ≠ "" ∧ pyStrip "short" ≠ "" := by decide

/-- Claim C5 amended: validation succeeds iff the instance is not empty or
whitespace-only, the token is not empty or whitespace-only, the instance
with hyphens and underscores removed is non-empty and alphanumeric, and
the stripped token has at least ten characters. -/
theorem validate_configuration_amended :
    ∀ (glean_instance api_token : String),
      validate_configuration glean_instance api_token = none ↔
        (pyStrip glean_instance ≠ "" ∧ pyStrip api_token ≠ "" ∧
         pyIsAlnum (remove_dash_underscore glean_instance) = true ∧
         10 ≤ (pyStrip api_token).data.length) := by
  intro glean_instance api_token
  unfold validate_configuration
  split_ifs with h1 h2 h3 h4 <;> simp_all

/-- Claim C3 counterexample: when the underlying client.post raises a
GleanHTTPError with status 500, the search retriever call returns the
normal empty document list (reporting the error only through the
error-callback hook) instead of raising the classified error. -/
theorem search_swallows_http_error_counterexample :
    get_relevant_documents_search (.error (.httpError 500 none)) =
      ([], ["Glean API error: HTTP Error 500"]) := by decide

/-- Claim C3 amended: on a failing vendor call the search retriever
reports the error through the error-callback hook and returns an empty
document list for all three caught error kinds, while the people
retriever raises a ValueError for a vendor GleanError and returns an
empty list for any other exception. -/
theorem retriever_error_paths_amended :
    (∀ (s : Int) (r : Option String),
      get_relevant_documents_search (.error (.httpError s r)) =
        ([], ["Glean API error: " ++ http_error_details s r])) ∧
    (∀ m : String,
      get_relevant_documents_search (.error (.connectionError m)) =
        ([], ["Glean connection error: " ++ m])) ∧
    (∀ m : String,
      get_relevant_documents_search (.error (.clientError m)) =
        ([], ["Glean client error: " ++ m])) ∧
    (∀ (k : Option Int) (m : String),
      get_relevant_documents_people k (.error (.gleanSdkError m)) =
        .error ("Glean client error: " ++ m)) ∧
    (∀ k : Option Int,
      get_relevant_documents_people k (.error .otherException) = .ok []) :=
  ⟨fun _ _ => rfl, fun _ => rfl, fun _ => rfl, fun _ _ => rfl, fun _ => rfl⟩

/-- Claim C4 counterexample: with the people retriever configured with
k = 2 and a successful response of five results, the returned list keeps
all five mapped Documents; it is not truncated to the first two. -/
theorem people_no_truncation_counterexample :
    get_relevant_documents_people (some 2)
        (.ok (List.replicate 5 (⟨some "P", none⟩ : PersonResult))) =
      .ok (List.replicate 5 ("P", [])) ∧
    (List.replicate 5 (("P", []) : String × List (String × String))).length ≠ 2 := by
  decide

/-- Claim C4 amended: the configured k is not applied as a client-side
truncation: a successful invocation returns one Document per mapped
result (same length, same order), and k only determines the page size
requested from the vendor (k = 2 yields a request with page size 2). -/
theorem people_k_only_sets_page_size_amended :
    (∀ (k : Option Int) (results : List PersonResult),
      get_relevant_documents_people k (.ok results) = .ok (results.map person_document)) ∧
    (∀ (k : Option Int) (results : List PersonResult),
      (results.map person_document).length = results.length) ∧
    (∀ q : String, (build_entities_request_from_text (some 2) q none).pageSize = some 2) :=
  ⟨fun _ _ => rfl, fun _ results => results.length_map _, fun _ => rfl⟩

/-- Claim C6 counterexample: a hit whose single snippet text is a blank
space has the non-empty joined text consisting of that space, yet the
built body is the title, because the fallback fires whenever the joined
text strips to the empty string, not only when it is empty. -/
theorem build_document_content_counterexample :
    joined_snippet_text [some " "] = " " ∧ (" " : String) ≠ "" ∧
    build_document_content [some " "] (some "T") = "T" ∧ ("T" : String) ≠ " " := by
  decide

/-- Claim C6 amended: the Document body is the newline-joined non-empty
snippet texts, falling back to the title (default empty) exactly when
that joined text is empty or whitespace-only; in particular snippets
A. and B. produce the two-line body, and zero snippets with title T
produce T. -/
theorem build_document_content_amended :
    (∀ (snippets : List (Option String)) (title : Option String),
      (pyStrip (joined_snippet_text snippets) = "" →
        build_document_content snippets title = title.getD "") ∧
      (pyStrip (joined_snippet_text snippets) ≠ "" →
        build_document_content snippets title = joined_snippet_text snippets)) ∧
    build_document_content [some "A.", some "B."] none = "A.\nB." ∧
    build_document_content [] (some "T") = "T" := by
  refine ⟨fun snippets title => ⟨fun h => ?_, fun h => ?_⟩, by decide, by decide⟩
  · simp [build_document_content, h]
  · simp [build_document_content, h]

/-- Witness for the amended C6 at a concrete input with a whitespace-only
joined text: the body falls back to the title. -/
theorem build_document_content_amended_witness :
    build_document_content [some " "] (some "T") = "T" :=
  (build_document_content_amended.1 [some " "] (some "T")).1 (by decide)

/-- Claim C9 counterexample: a structured request with a non-empty
filters map and no query still fails to construct when the page size is
zero, because the pydantic bounds on page_size also reject the input;
this refutes the exactly-when reading of the claim. -/
theorem people_request_validation_counterexample :
    construct_people_profile_basic_request none (some [("email", "jane@acme.com")]) (some 0) =
      .error "page_size must be between 1 and 100" ∧
    truthyFilters (some [("email", "jane@acme.com")]) = true ∧
    truthyStr none = false := by decide

/-- Claim C9 amended: construction succeeds iff at least one of query and
filters is truthy and the page size, when present, lies within 1..100;
in particular a filters-only request without a page size constructs
successfully, and the empty-both rejection is exactly the
ensure_query_or_filter validator. -/
theorem people_request_validation_amended :
    (∀ (q : Option String) (f : Option (List (String × String))) (p : Option Int),
      constructionOk (construct_people_profile_basic_request q f p) =
        ((truthyStr q || truthyFilters f) && page_size_in_range p)) ∧
    construct_people_profile_basic_request none (some [("department", "Engineering")]) none =
      .ok ⟨none, some [("department", "Engineering")], none⟩ := by
  refine ⟨fun q f p => ?_, by decide⟩
  cases hq : truthyStr q <;> cases hf : truthyFilters f <;>
    cases hp : page_size_in_range p <;>
      simp [construct_people_profile_basic_request, hq, hf, hp, constructionOk]

/-- Every chunk emitted by the fragment loop carries the chatId and
tracking token passed for the current line. -/
theorem emit_fragments_chunk_ids (cid tk : Option String) (frags : List StreamFragment)
    (st : Option String) (c : StreamChunk) (h : c ∈ (emit_fragments cid tk frags st).1) :
    c.chatId = cid ∧ c.trackingToken = tk := by
  induction frags generalizing st with
  | nil => simp [emit_fragments] at h
  | cons f rest ih =>
    cases hft : f.text with
    | none =>
      simp only [emit_fragments, hft] at h
      exact ih _ h
    | some t =>
      by_cases ht : t = ""
      · subst ht
        simp only [emit_fragments, hft] at h
        simp at h
        exact ih _ h
      · simp only [emit_fragments, hft, if_pos ht] at h
        rcases List.mem_cons.mp h with hc | hc
        · subst hc; exact ⟨rfl, rfl⟩
        · exact ih _ hc

/-- Every chunk emitted by the message loop carries the chatId and
tracking token passed for the current line. -/
theorem emit_messages_chunk_ids (cid tk : Option String) (msgs : List StreamMessage)
    (st : Option String) (c : StreamChunk) (h : c ∈ (emit_messages cid tk msgs st).1) :
    c.chatId = cid ∧ c.trackingToken = tk := by
  induction msgs generalizing st with
  | nil => simp [emit_messages] at h
  | cons m rest ih =>
    cases m with
    | nonDictMessage =>
      rw [emit_messages] at h
      exact ih _ h
    | dictMessage a mt frags =>
      by_cases hm : a = "GLEAN_AI" ∧ mt = "CONTENT"
      · rw [emit_messages] at h
        simp only [if_pos hm] at h
        rcases List.mem_append.mp h with hc | hc
        · exact emit_fragments_chunk_ids cid tk frags st c hc
        · exact ih _ hc
      · rw [emit_messages] at h
        simp only [if_neg hm] at h
        exact ih _ h

/-- Claim C2 counterexample: on the three-line example body the parser
emits exactly the two expected chunks whose concatenated text is the
full sentence, but neither chunk carries the session id announced on
line one: both carry no chat id at all, because each chunk only records
the chatId of its own line. -/
theorem stream_session_id_counterexample :
    ((stream_chat exampleStreamLines none).1.map StreamChunk.text) =
      ["This is ", "a streaming response."] ∧
    String.join ((stream_chat exampleStreamLines none).1.map StreamChunk.text) =
      "This is a streaming response." ∧
    optionTruthy (some "mock-chat-id") = true ∧
    ((stream_chat exampleStreamLines none).1.map StreamChunk.chatId) = [none, none] ∧
    ([none, none] : List (Option String)) ≠ [some "mock-chat-id", some "mock-chat-id"] := by
  decide

/-- Claim C2 amended: each non-blank line contributes one chunk per
non-empty text fragment of each assistant-content message, and every
chunk carries the chat id and tracking token of its own line (none when
that line carries none), not a session id captured earlier; on the
three-line example exactly two chunks are emitted, their concatenated
text is the full sentence, and both carry no chat id, while the
self.chat_id state also stays unset because line one emits no chunk. -/
theorem stream_chunks_amended :
    (∀ (d : StreamLineData) (st : Option String) (c : StreamChunk),
      c ∈ (process_stream_line d st).1 →
      c.chatId = d.chatId ∧ c.trackingToken = d.trackingToken) ∧
    stream_chat exampleStreamLines none =
      ([⟨"This is ", none, none⟩, ⟨"a streaming response.", none, none⟩], none) := by
  constructor
  · intro d st c h
    cases hm : d.messages with
    | none => rw [process_stream_line, hm] at h; simp at h
    | some msgs =>
      rw [process_stream_line, hm] at h
      exact emit_messages_chunk_ids d.chatId d.trackingToken msgs st c h
  · decide

/-- Witness for the amended C2: the chunk emitted from the second example
line is in the output of processing that line, and it carries the chat
id of that line, namely none. -/
theorem stream_chunks_amended_witness :
    ((⟨"This is ", none, none⟩ : StreamChunk) ∈
      (process_stream_line
        ⟨some [.dictMessage "GLEAN_AI" "CONTENT" [⟨some "This is "⟩]], none, none⟩ none).1) ∧
    (⟨"This is ", none, none⟩ : StreamChunk).chatId = none :=
  ⟨by decide,
   (stream_chunks_amended.1
     ⟨some [.dictMessage "GLEAN_AI" "CONTENT" [⟨some "This is "⟩]], none, none⟩
     none ⟨"This is ", none, none⟩ (by decide)).1⟩

/-- Claim C7: the role mapping of _convert_message_to_glean_format.
A system message maps to USER with message type CONTEXT, a human message
to USER with CONTENT, an assistant message to GLEAN_AI with CONTENT, and
a chat message with an unrecognized role (and any unknown message type)
to USER with CONTENT. -/
theorem convert_message_roles :
    ∀ c : String,
      convert_message_to_glean_format (.systemMessage c) = ⟨.user, .contextType, c⟩ ∧
      convert_message_to_glean_format (.humanMessage c) = ⟨.user, .contentType, c⟩ ∧
      convert_message_to_glean_format (.aiMessage c) = ⟨.gleanAi, .contentType, c⟩ ∧
      (∀ role : String,
        pyUpper role ≠ "USER" → pyUpper role ≠ "ASSISTANT" → pyUpper role ≠ "AI" →
        convert_message_to_glean_format (.chatMessage role c) = ⟨.user, .contentType, c⟩) ∧
      convert_message_to_glean_format (.otherMessage c) = ⟨.user, .contentType, c⟩ := by
  intro c
  refine ⟨rfl, rfl, rfl, ?_, rfl⟩
  intro role h1 h2 h3
  simp [convert_message_to_glean_format, h1, h2, h3]

/-- Witness for C7 at concrete inputs, including the unrecognized role
tool. -/
theorem convert_message_roles_witness :
    convert_message_to_glean_format (.systemMessage "hi") = ⟨.user, .contextType, "hi"⟩ ∧
    convert_message_to_glean_format (.chatMessage "tool" "hi") = ⟨.user, .contentType, "hi"⟩ :=
  ⟨(convert_message_roles "hi").1,
   (convert_message_roles "hi").2.2.2.1 "tool" (by decide) (by decide) (by decide)⟩

/-- A list that starts with p still starts with p after appending. -/
theorem listIsPre_extend (p s rest : List Char) (h : listIsPre p s = true) :
    listIsPre p (s ++ rest) = true := by
  induction p generalizing s with
  | nil => simp [listIsPre]
  | cons a p1 ih =>
    cases s with
    | nil => simp [listIsPre] at h
    | cons b s1 =>
      simp only [listIsPre, Bool.and_eq_true] at h
      simp only [List.cons_append, listIsPre, Bool.and_eq_true]
      exact ⟨h.1, ih s1 h.2⟩

/-- Claim C8: whenever the tool reaches the retriever call (a query is
present) and the retriever raises, _run and _arun catch the exception
and return a string beginning with the Error searching Glean prefix
instead of propagating it. -/
theorem tool_run_catches_errors :
    ∀ (query : ToolQueryInput) (e : String),
      extract_query query ≠ none →
      listIsPre "Error searching Glean:".data (tool_run query (.error e)).data = true := by
  intro query e h
  cases hq : extract_query query with
  | none => exact absurd hq h
  | some q =>
    rw [tool_run, hq]
    rw [String.data_append]
    exact listIsPre_extend _ _ _ (by decide)

/-- Witness for C8: a plain string query with a raised exception rendered
boom. -/
theorem tool_run_catches_errors_witness :
    extract_query (.strQuery "hello") ≠ none ∧
    listIsPre "Error searching Glean:".data
      (tool_run (.strQuery "hello") (.error "boom")).data = true :=
  ⟨by decide, tool_run_catches_errors (.strQuery "hello") "boom" (by decide)⟩

/-- Folding fragments that all contribute the empty string leaves the
accumulator unchanged. -/
theorem agent_foldl_empty_contributions (l : List AgentFragment) (acc : String)
    (h : ∀ f ∈ l, agent_fragment_contribution f = "") :
    l.foldl (fun acc f => acc ++ agent_fragment_contribution f) acc = acc := by
  induction l generalizing acc with
  | nil => rfl
  | cons f rest ih =>
    have hf : agent_fragment_contribution f = "" := h f (by simp)
    simp only [List.foldl_cons, hf, String.append_empty]
    exact ih acc (fun g hg => h g (by simp [hg]))

/-- Claim C10: when an agent run succeeds at the network level but the
response carries no GLEAN_AI message with a non-empty string fragment,
_generate and _agenerate do not raise and produce exactly one generation
whose content is the str rendering of the whole raw response. -/
theorem agent_generate_fallback :
    ∀ r : AgentRunResponse,
      r.messages.any agent_message_has_ai_content = false →
      agent_generate r = [r.rendering] := by
  intro r h
  rw [agent_generate]
  have hcontent :
      (match (r.messages.filter agent_is_ai_message).getLast? with
        | some (.dictMessage _ frags) =>
          frags.foldl (fun acc f => acc ++ agent_fragment_contribution f) ""
        | _ => "") = "" := by
    cases hl : (r.messages.filter agent_is_ai_message).getLast? with
    | none => rfl
    | some m =>
      have hmem1 : m ∈ (r.messages.filter agent_is_ai_message).getLast? := by
        rw [hl]; rfl
      obtain ⟨hne, heq⟩ := List.mem_getLast?_eq_getLast hmem1
      have hmem : m ∈ r.messages.filter agent_is_ai_message :=
        heq ▸ List.getLast_mem hne
      have hmsg : m ∈ r.messages := (List.mem_filter.mp hmem).1
      have hai : agent_is_ai_message m = true := (List.mem_filter.mp hmem).2
      have hno : agent_message_has_ai_content m = false := by
        cases h1 : agent_message_has_ai_content m with
        | false => rfl
        | true => exact absurd (List.any_eq_true.mpr ⟨m, hmsg, h1⟩) (by rw [h]; simp)
      cases m with
      | nonDictMessage => rfl
      | dictMessage a frags =>
        simp only [agent_is_ai_message] at hai
        simp only [agent_message_has_ai_content, hai, Bool.true_and] at hno
        have hall : ∀ f ∈ frags, agent_fragment_contribution f = "" := by
          intro f hf
          have hfe : agent_fragment_is_nonempty_str f = false := by
            cases h2 : agent_fragment_is_nonempty_str f with
            | false => rfl
            | true => exact absurd (List.any_eq_true.mpr ⟨f, hf, h2⟩) (by rw [hno]; simp)
          cases hft : f.text with
          | none => simp [agent_fragment_contribution, hft]
          | some v =>
            cases v with
            | nonStrText => simp [agent_fragment_contribution, hft]
            | strText s =>
              simp only [agent_fragment_is_nonempty_str, hft] at hfe
              have hs : s = "" := by simpa using hfe
              simp [agent_fragment_contribution, hft, hs]
        exact agent_foldl_empty_contributions frags "" hall
  rw [hcontent]
  rfl

/-- Witness for C10: a response whose only GLEAN_AI message carries a
single non-string fragment falls back to the raw rendering. -/
theorem agent_generate_fallback_witness :
    agent_generate ⟨[.dictMessage "GLEAN_AI" [⟨some .nonStrText⟩]], "RAW RESPONSE"⟩ =
      ["RAW RESPONSE"] :=
  agent_generate_fallback ⟨[.dictMessage "GLEAN_AI" [⟨some .nonStrText⟩]], "RAW RESPONSE"⟩
    (by decide)

end LangchainGlean
